import Mathlib

/-!
Verification development for a procurement-ticket approval service
(Rust/axum backend).  The ticket lifecycle engine of `src/main.rs`
(`add_ticket`, `edit_ticket`) and the pagination layer of
`src/db/ticket.rs` (`get_tickets_page`, `get_tickets_count`) are embedded
shallowly below; opaque 128-bit identifiers become `Nat`, the
`OffsetDateTime` creation timestamp becomes `Int`, and the `f64` price —
which the code stores verbatim and never inspects or computes with —
becomes `Rat`.
-/

namespace Dubna

/-- `db::user::Role` from `src/db/user.rs`. -/
inductive Role where
  | Initiator
  | PurchasingManager
  | AccountingManager
deriving DecidableEq, Repr

/-- `db::ticket::Status` from `src/db/ticket.rs`. -/
inductive Status where
  | Requested
  | Cancelled
  | Confirmed
  | Denied
  | PaymentCompleted
deriving DecidableEq, Repr

/-- `db::User` from `src/db/user.rs` (uuid ids as `Nat`). -/
structure User where
  id : Nat
  name : String
  role : Role
  login : String
  password_hash : String
deriving DecidableEq, Repr

/-- `db::Ticket` from `src/db/ticket.rs`: uuid ids as `Nat`, `usize count`
as `Nat`, `Option<f64> price` as `Option Rat`, `OffsetDateTime created_at`
as `Int`. -/
structure Ticket where
  id : Nat
  title : String
  description : String
  status : Status
  count : Nat
  price : Option Rat
  initiator : Nat
  purchasing_manager : Option Nat
  accounting_manager : Option Nat
  created_at : Int
deriving DecidableEq, Repr

/-- `EditTicketInput` from `src/main.rs`. -/
inductive EditTicketInput where
  | EditTitle (title : String)
  | EditDescription (description : String)
  | Cancel
  | Confirm (price : Rat)
  | Deny
  | MarkAsPaid
deriving DecidableEq, Repr

/-- `EditTicketError` from `src/main.rs` (the `DbError` transport wrapper
is plumbing and is not part of the lifecycle engine). -/
inductive EditTicketError where
  | TicketCannotBeCancelled
  | TicketCannotBeConfirmed
  | TicketCannotBeModified
  | TicketCannotBePaid
  | TicketNotFound
  | UserNotFound
deriving DecidableEq, Repr

/-- `AddTicketError` from `src/main.rs` (without the `DbError` wrapper). -/
inductive AddTicketError where
  | TicketCannotBeCreated
  | UserNotFound
deriving DecidableEq, Repr

/-- The pure core of `add_ticket` (`src/main.rs` lines 267–300): after the
acting user `my` is loaded, the role guard runs and the fresh ticket is
built with a new id and the current time (passed in explicitly here). -/
def add_ticket (my : User) (newId : Nat) (now : Int)
    (title description : String) (count : Nat) :
    Except AddTicketError Ticket :=
  if my.role ≠ Role.Initiator then
    .error .TicketCannotBeCreated
  else
    .ok { id := newId
          title := title
          description := description
          status := Status.Requested
          count := count
          price := none
          initiator := my.id
          purchasing_manager := none
          accounting_manager := none
          created_at := now }

/-- The pure core of `edit_ticket` (`src/main.rs` lines 372–427): the
`match op` block that guards and mutates the loaded ticket.  A failed
guard is an early `return Err(..)`, so the ticket value is only changed on
the success path. -/
def edit_ticket (my : User) (ticket : Ticket) (op : EditTicketInput) :
    Except EditTicketError Ticket :=
  match op with
  | .EditTitle title =>
      if ticket.status ≠ Status.Requested ∨ ticket.initiator ≠ my.id then
        .error .TicketCannotBeModified
      else
        .ok { ticket with title := title }
  | .EditDescription description =>
      -- Description can be used for comments, so should be editable
      -- throughout the ticket lifecycle.
      .ok { ticket with description := description }
  | .Cancel =>
      if ticket.status ≠ Status.Requested ∨ ticket.initiator ≠ my.id then
        .error .TicketCannotBeCancelled
      else
        .ok { ticket with status := Status.Cancelled }
  | .Confirm price =>
      if ticket.status ≠ Status.Requested ∨ my.role ≠ Role.PurchasingManager then
        .error .TicketCannotBeConfirmed
      else
        .ok { ticket with
              status := Status.Confirmed
              price := some price
              purchasing_manager := some my.id }
  | .Deny =>
      if ticket.status ≠ Status.Requested ∨ my.role ≠ Role.PurchasingManager then
        .error .TicketCannotBeConfirmed
      else
        .ok { ticket with
              status := Status.Denied
              purchasing_manager := some my.id }
  | .MarkAsPaid =>
      if ticket.status ≠ Status.Confirmed ∨ my.role ≠ Role.AccountingManager then
        .error .TicketCannotBePaid
      else
        .ok { ticket with
              status := Status.PaymentCompleted
              accounting_manager := some my.id }

/-- `get_ticket_by_id` of `src/db/ticket.rs` over an in-memory model of the
`tickets` table (`SELECT .. WHERE id = $1`). -/
def get_ticket_by_id (store : List Ticket) (id : Nat) : Option Ticket :=
  store.find? (fun t => t.id == id)

/-- `write_ticket` of `src/db/ticket.rs`: `INSERT .. ON CONFLICT (id) DO
UPDATE` — an upsert keyed on the ticket id. -/
def write_ticket (store : List Ticket) (t : Ticket) : List Ticket :=
  if store.any (fun u => u.id == t.id) then
    store.map (fun u => if u.id == t.id then t else u)
  else
    store ++ [t]

/-- The row ordering demanded by the `ORDER BY created_at DESC, id DESC`
clause of `get_tickets_page` in `src/db/ticket.rs`: `a` precedes `b` when
`a.created_at > b.created_at`, ties broken by `a.id > b.id` (uuid values
compare bytewise, i.e. as 128-bit numbers). -/
def pageBefore (a b : Ticket) : Prop :=
  b.created_at < a.created_at ∨ (a.created_at = b.created_at ∧ b.id ≤ a.id)

instance : DecidableRel pageBefore := fun a b => by
  unfold pageBefore; infer_instance

instance : IsTotal Ticket pageBefore :=
  ⟨fun a b => by unfold pageBefore; omega⟩

instance : IsTrans Ticket pageBefore :=
  ⟨fun a b c hab hbc => by unfold pageBefore at *; omega⟩

/-- The full result set of `get_tickets_page` before `OFFSET`/`LIMIT`:
the `tickets` table sorted per its `ORDER BY` clause (the SQL is
declarative; insertion sort realises the order). -/
def sortTickets (store : List Ticket) : List Ticket :=
  List.insertionSort pageBefore store

/-- `get_tickets_page` of `src/db/ticket.rs`: sort the table by
`created_at DESC, id DESC`, then apply `OFFSET $1 LIMIT $2`. -/
def get_tickets_page (store : List Ticket) (offset limit : Nat) :
    List Ticket :=
  ((sortTickets store).drop offset).take limit

/-- `get_tickets_count` of `src/db/ticket.rs`: `SELECT COUNT(*) FROM
tickets`. -/
def get_tickets_count (store : List Ticket) : Nat :=
  store.length

/-- The read-modify-write cycle of the `edit_ticket` handler at the store
level (`src/main.rs` lines 366–429): load the ticket by id, run the
lifecycle engine, and persist the result only on success — every rejected
guard is an early `return Err(..)` placed before `write_ticket`. -/
def edit_ticket_step (store : List Ticket) (my : User) (id : Nat)
    (op : EditTicketInput) :
    Except EditTicketError Ticket × List Ticket :=
  match get_ticket_by_id store id with
  | none => (.error .TicketNotFound, store)
  | some ticket =>
    match edit_ticket my ticket op with
    | .error e => (.error e, store)
    | .ok ticket' => (.ok ticket', write_ticket store ticket')

/-- Tickets reachable through the public operations: produced by
`add_ticket` and closed under accepted `edit_ticket` operations. -/
inductive Reachable : Ticket → Prop where
  | created (my : User) (newId : Nat) (now : Int)
      (title description : String) (count : Nat) (t : Ticket) :
      add_ticket my newId now title description count = .ok t →
      Reachable t
  | edited (my : User) (op : EditTicketInput) (t t' : Ticket) :
      Reachable t → edit_ticket my t op = .ok t' → Reachable t'

/-! ### Inversion helpers for the lifecycle engine -/

/-- Complete case analysis of an accepted `edit_ticket` operation: which
guard held and the exact record produced. -/
theorem edit_ok_inv {my : User} {t : Ticket} {op : EditTicketInput}
    {t' : Ticket} (h : edit_ticket my t op = .ok t') :
    (∃ s, op = .EditTitle s ∧ t.status = .Requested ∧
      t.initiator = my.id ∧ t' = { t with title := s }) ∨
    (∃ s, op = .EditDescription s ∧ t' = { t with description := s }) ∨
    (op = .Cancel ∧ t.status = .Requested ∧ t.initiator = my.id ∧
      t' = { t with status := .Cancelled }) ∨
    (∃ p, op = .Confirm p ∧ t.status = .Requested ∧
      my.role = .PurchasingManager ∧
      t' = { t with status := .Confirmed, price := some p,
                    purchasing_manager := some my.id }) ∨
    (op = .Deny ∧ t.status = .Requested ∧
      my.role = .PurchasingManager ∧
      t' = { t with status := .Denied,
                    purchasing_manager := some my.id }) ∨
    (op = .MarkAsPaid ∧ t.status = .Confirmed ∧
      my.role = .AccountingManager ∧
      t' = { t with status := .PaymentCompleted,
                    accounting_manager := some my.id }) := by
  cases op <;> simp only [edit_ticket] at h
  case EditTitle s =>
    split at h
    · exact absurd h (by simp)
    · rename_i hc
      push_neg at hc
      exact Or.inl ⟨s, rfl, hc.1, hc.2, ((Except.ok.injEq _ _).mp h).symm⟩
  case EditDescription s =>
    exact Or.inr (Or.inl ⟨s, rfl, ((Except.ok.injEq _ _).mp h).symm⟩)
  case Cancel =>
    split at h
    · exact absurd h (by simp)
    · rename_i hc
      push_neg at hc
      exact Or.inr (Or.inr (Or.inl
        ⟨rfl, hc.1, hc.2, ((Except.ok.injEq _ _).mp h).symm⟩))
  case Confirm p =>
    split at h
    · exact absurd h (by simp)
    · rename_i hc
      push_neg at hc
      exact Or.inr (Or.inr (Or.inr (Or.inl
        ⟨p, rfl, hc.1, hc.2, ((Except.ok.injEq _ _).mp h).symm⟩)))
  case Deny =>
    split at h
    · exact absurd h (by simp)
    · rename_i hc
      push_neg at hc
      exact Or.inr (Or.inr (Or.inr (Or.inr (Or.inl
        ⟨rfl, hc.1, hc.2, ((Except.ok.injEq _ _).mp h).symm⟩))))
  case MarkAsPaid =>
    split at h
    · exact absurd h (by simp)
    · rename_i hc
      push_neg at hc
      exact Or.inr (Or.inr (Or.inr (Or.inr (Or.inr
        ⟨rfl, hc.1, hc.2, ((Except.ok.injEq _ _).mp h).symm⟩))))

/-- Inversion of an accepted `add_ticket`: the acting user is an
initiator and the fresh ticket has exactly the creation field values. -/
theorem add_ok_inv {my : User} {newId : Nat} {now : Int}
    {title description : String} {count : Nat} {t : Ticket}
    (h : add_ticket my newId now title description count = .ok t) :
    my.role = .Initiator ∧
    t = { id := newId, title := title, description := description,
          status := .Requested, count := count, price := none,
          initiator := my.id, purchasing_manager := none,
          accounting_manager := none, created_at := now } := by
  simp only [add_ticket] at h
  split at h
  · exact absurd h (by simp)
  · rename_i hc
    push_neg at hc
    exact ⟨hc, ((Except.ok.injEq _ _).mp h).symm⟩

/-- An accepted `Confirm` produces exactly the confirmed record
(`src/main.rs` lines 396–406). -/
theorem confirm_ok {my : User} {t : Ticket} (p : Rat)
    (hs : t.status = .Requested) (hr : my.role = .PurchasingManager) :
    edit_ticket my t (.Confirm p) =
      .ok { t with status := .Confirmed, price := some p,
                   purchasing_manager := some my.id } := by
  simp [edit_ticket, hs, hr]

/-- An accepted `MarkAsPaid` produces exactly the paid record
(`src/main.rs` lines 417–426). -/
theorem markAsPaid_ok {my : User} {t : Ticket}
    (hs : t.status = .Confirmed) (hr : my.role = .AccountingManager) :
    edit_ticket my t .MarkAsPaid =
      .ok { t with status := .PaymentCompleted,
                   accounting_manager := some my.id } := by
  simp [edit_ticket, hs, hr]

/-! ### Concrete sample data (mirrors the integration-test fixtures) -/

def uIni : User :=
  { id := 1, name := "Alice", role := .Initiator,
    login := "alice", password_hash := "password" }

def uPur : User :=
  { id := 2, name := "Bob", role := .PurchasingManager,
    login := "bob", password_hash := "password" }

def uAcc : User :=
  { id := 3, name := "Carol", role := .AccountingManager,
    login := "carol", password_hash := "password" }

/-- A freshly created ticket, as `add_ticket uIni 10 0 ..` returns it. -/
def tReq : Ticket :=
  { id := 10, title := "Ticket 1", description := "Description 1",
    status := .Requested, count := 1, price := none, initiator := 1,
    purchasing_manager := none, accounting_manager := none,
    created_at := 0 }

def tConf : Ticket :=
  { tReq with status := .Confirmed, price := some 100,
              purchasing_manager := some 2 }

def tCan : Ticket :=
  { tReq with status := .Cancelled }

/-! ### C1 -/

/-- C1: for every ticket reachable through the public operations, price is
non-null iff status is `Confirmed` or `PaymentCompleted`; `Confirm` is the
only operation that ever sets price and always does so together with the
transition to `Confirmed`; no other operation sets or clears price. -/
theorem reachable_price_invariant :
    (∀ t, Reachable t →
      (t.price ≠ none ↔
        t.status = Status.Confirmed ∨ t.status = Status.PaymentCompleted)) ∧
    (∀ (my : User) (t : Ticket) (p : Rat) (t' : Ticket),
      edit_ticket my t (.Confirm p) = .ok t' →
      t'.status = Status.Confirmed ∧ t'.price = some p) ∧
    (∀ (my : User) (t : Ticket) (op : EditTicketInput) (t' : Ticket),
      edit_ticket my t op = .ok t' → (∀ p, op ≠ .Confirm p) →
      t'.price = t.price) := by
  refine ⟨?_, ?_, ?_⟩
  · intro t ht
    induction ht with
    | created my newId now title description count t h =>
        obtain ⟨-, rfl⟩ := add_ok_inv h
        simp
    | edited my op t t' ht h ih =>
        rcases edit_ok_inv h with
          ⟨s, rfl, hs, hi, rfl⟩ | ⟨s, rfl, rfl⟩ | ⟨rfl, hs, hi, rfl⟩ |
          ⟨p, rfl, hs, hr, rfl⟩ | ⟨rfl, hs, hr, rfl⟩ | ⟨rfl, hs, hr, rfl⟩
        · simpa using ih
        · simpa using ih
        · simp only [hs] at ih
          simp at ih
          simp [ih]
        · simp
        · simp only [hs] at ih
          simp at ih
          simp [ih]
        · simp only [hs] at ih
          simp at ih
          simp [ih]
  · intro my t p t' h
    rw [confirm_ok p ?hs ?hr] at h
    case hs =>
      by_contra hs
      simp [edit_ticket, hs] at h
    case hr =>
      by_contra hr
      simp [edit_ticket, hr] at h
    simp only [Except.ok.injEq] at h
    subst h
    exact ⟨rfl, rfl⟩
  · intro my t op t' h hnot
    rcases edit_ok_inv h with
      ⟨s, rfl, hs, hi, rfl⟩ | ⟨s, rfl, rfl⟩ | ⟨rfl, hs, hi, rfl⟩ |
      ⟨p, hp, hs, hr, rfl⟩ | ⟨rfl, hs, hr, rfl⟩ | ⟨rfl, hs, hr, rfl⟩
    · rfl
    · rfl
    · rfl
    · exact absurd hp (hnot p)
    · rfl
    · rfl

/-- C1 witness: the invariant instantiated on a concrete created ticket. -/
theorem reachable_price_invariant_witness :
    tReq.price ≠ none ↔
      tReq.status = Status.Confirmed ∨
        tReq.status = Status.PaymentCompleted :=
  reachable_price_invariant.1 tReq
    (Reachable.created uIni 10 0 "Ticket 1" "Description 1" 1 tReq rfl)

/-! ### C2 -/

/-- C2 counterexample: a rejected `Deny` does NOT get a Deny-specific
failure condition — on the same Cancelled ticket, the rejected `Deny` and
the rejected `Confirm` return the very same error value,
`TicketCannotBeConfirmed` (`src/main.rs` line 411). -/
theorem deny_rejection_not_distinct :
    edit_ticket uPur tCan .Deny =
      .error .TicketCannotBeConfirmed ∧
    edit_ticket uPur tCan (.Confirm 100) =
      .error .TicketCannotBeConfirmed :=
  ⟨rfl, rfl⟩

/-- C2 (amended): each rejected operation yields a fixed failure
condition — `EditTitle ↦ TicketCannotBeModified`,
`Cancel ↦ TicketCannotBeCancelled`, `Confirm ↦ TicketCannotBeConfirmed`,
`MarkAsPaid ↦ TicketCannotBePaid`, `EditDescription` never rejects — but
a rejected `Deny` yields `TicketCannotBeConfirmed`, the same condition as
a rejected `Confirm`, not a Deny-specific one. -/
theorem rejection_error_names_operation :
    ∀ (my : User) (t : Ticket) (op : EditTicketInput)
      (e : EditTicketError),
      edit_ticket my t op = .error e →
      ((∃ s, op = .EditTitle s) → e = .TicketCannotBeModified) ∧
      ((∃ s, op = .EditDescription s) → False) ∧
      (op = .Cancel → e = .TicketCannotBeCancelled) ∧
      ((∃ p, op = .Confirm p) → e = .TicketCannotBeConfirmed) ∧
      (op = .Deny → e = .TicketCannotBeConfirmed) ∧
      (op = .MarkAsPaid → e = .TicketCannotBePaid) := by
  intro my t op e h
  cases op <;> simp only [edit_ticket] at h
  case EditTitle s =>
    have he : e = .TicketCannotBeModified := by
      split at h
      · exact ((Except.error.injEq _ _).mp h).symm
      · exact absurd h (by simp)
    subst he
    exact ⟨fun _ => rfl, by simp, by simp, by simp, by simp, by simp⟩
  case EditDescription s =>
    exact absurd h (by simp)
  case Cancel =>
    have he : e = .TicketCannotBeCancelled := by
      split at h
      · exact ((Except.error.injEq _ _).mp h).symm
      · exact absurd h (by simp)
    subst he
    exact ⟨by simp, by simp, fun _ => rfl, by simp, by simp, by simp⟩
  case Confirm p =>
    have he : e = .TicketCannotBeConfirmed := by
      split at h
      · exact ((Except.error.injEq _ _).mp h).symm
      · exact absurd h (by simp)
    subst he
    exact ⟨by simp, by simp, by simp, fun _ => rfl, by simp, by simp⟩
  case Deny =>
    have he : e = .TicketCannotBeConfirmed := by
      split at h
      · exact ((Except.error.injEq _ _).mp h).symm
      · exact absurd h (by simp)
    subst he
    exact ⟨by simp, by simp, by simp, by simp, fun _ => rfl, by simp⟩
  case MarkAsPaid =>
    have he : e = .TicketCannotBePaid := by
      split at h
      · exact ((Except.error.injEq _ _).mp h).symm
      · exact absurd h (by simp)
    subst he
    exact ⟨by simp, by simp, by simp, by simp, by simp, fun _ => rfl⟩

/-- C2 witness: the amended theorem applied to a concrete rejected
`MarkAsPaid` on a still-Requested ticket. -/
theorem rejection_error_names_operation_witness :
    edit_ticket uIni tReq .MarkAsPaid = .error .TicketCannotBePaid ∧
    EditTicketError.TicketCannotBePaid = .TicketCannotBePaid :=
  ⟨rfl,
    (rejection_error_names_operation uIni tReq .MarkAsPaid
      .TicketCannotBePaid rfl).2.2.2.2.2 rfl⟩

/-! ### C3 -/

/-- C3: a rejected operation leaves the store byte-for-byte unchanged
(the guard's early `return Err(..)` precedes `write_ticket`), and an
accepted operation lands all of its mutations together — the result is
exactly one of the six all-at-once record updates, never a partial one. -/
theorem rejected_edit_is_no_op :
    (∀ (store : List Ticket) (my : User) (id : Nat)
        (op : EditTicketInput) (e : EditTicketError),
      (edit_ticket_step store my id op).1 = .error e →
      (edit_ticket_step store my id op).2 = store) ∧
    (∀ (my : User) (t : Ticket) (op : EditTicketInput) (t' : Ticket),
      edit_ticket my t op = .ok t' →
      (∃ s, t' = { t with title := s }) ∨
      (∃ s, t' = { t with description := s }) ∨
      t' = { t with status := .Cancelled } ∨
      (∃ p, t' = { t with status := .Confirmed, price := some p,
                          purchasing_manager := some my.id }) ∨
      t' = { t with status := .Denied,
                    purchasing_manager := some my.id } ∨
      t' = { t with status := .PaymentCompleted,
                    accounting_manager := some my.id }) := by
  constructor
  · intro store my id op e h
    cases hg : get_ticket_by_id store id with
    | none => simp [edit_ticket_step, hg]
    | some t =>
      cases hed : edit_ticket my t op with
      | error e2 => simp [edit_ticket_step, hg, hed]
      | ok t2 => simp [edit_ticket_step, hg, hed] at h
  · intro my t op t' h
    rcases edit_ok_inv h with
      ⟨s, _, hs, hi, rfl⟩ | ⟨s, _, rfl⟩ | ⟨_, hs, hi, rfl⟩ |
      ⟨p, _, hs, hr, rfl⟩ | ⟨_, hs, hr, rfl⟩ | ⟨_, hs, hr, rfl⟩
    · exact Or.inl ⟨s, rfl⟩
    · exact Or.inr (Or.inl ⟨s, rfl⟩)
    · exact Or.inr (Or.inr (Or.inl rfl))
    · exact Or.inr (Or.inr (Or.inr (Or.inl ⟨p, rfl⟩)))
    · exact Or.inr (Or.inr (Or.inr (Or.inr (Or.inl rfl))))
    · exact Or.inr (Or.inr (Or.inr (Or.inr (Or.inr rfl))))

/-- C3 witness: a concrete rejected `Cancel` (the ticket is already
Cancelled) leaves the concrete one-ticket store unchanged. -/
theorem rejected_edit_is_no_op_witness :
    (edit_ticket_step [tCan] uIni 10 .Cancel).1 =
      .error .TicketCannotBeCancelled ∧
    (edit_ticket_step [tCan] uIni 10 .Cancel).2 = [tCan] :=
  ⟨rfl,
    rejected_edit_is_no_op.1 [tCan] uIni 10 .Cancel
      .TicketCannotBeCancelled rfl⟩

/-! ### C4 -/

/-- C4: `MarkAsPaid` succeeds iff the status is exactly `Confirmed` and
the actor is an `AccountingManager`; success sets
`status := PaymentCompleted` and `accounting_manager := actor.id`;
every other status is rejected with `TicketCannotBePaid`. -/
theorem markAsPaid_succeeds_iff :
    ∀ (my : User) (t : Ticket),
      ((∃ t', edit_ticket my t .MarkAsPaid = .ok t') ↔
        t.status = Status.Confirmed ∧
          my.role = Role.AccountingManager) ∧
      (∀ t', edit_ticket my t .MarkAsPaid = .ok t' →
        t' = { t with status := .PaymentCompleted,
                      accounting_manager := some my.id }) ∧
      (t.status = .Requested ∨ t.status = .Cancelled ∨
          t.status = .Denied ∨ t.status = .PaymentCompleted →
        edit_ticket my t .MarkAsPaid = .error .TicketCannotBePaid) := by
  intro my t
  refine ⟨⟨?_, ?_⟩, ?_, ?_⟩
  · rintro ⟨t', h⟩
    rcases edit_ok_inv h with
      ⟨s, hop, _⟩ | ⟨s, hop, _⟩ | ⟨hop, _⟩ |
      ⟨p, hop, _⟩ | ⟨hop, _⟩ | ⟨-, hs, hr, -⟩
    · exact absurd hop (by simp)
    · exact absurd hop (by simp)
    · exact absurd hop (by simp)
    · exact absurd hop (by simp)
    · exact absurd hop (by simp)
    · exact ⟨hs, hr⟩
  · rintro ⟨hs, hr⟩
    exact ⟨_, markAsPaid_ok hs hr⟩
  · intro t' h
    rcases edit_ok_inv h with
      ⟨s, hop, _⟩ | ⟨s, hop, _⟩ | ⟨hop, _⟩ |
      ⟨p, hop, _⟩ | ⟨hop, _⟩ | ⟨-, hs, hr, rfl⟩
    · exact absurd hop (by simp)
    · exact absurd hop (by simp)
    · exact absurd hop (by simp)
    · exact absurd hop (by simp)
    · exact absurd hop (by simp)
    · rfl
  · rintro (hs | hs | hs | hs) <;> simp [edit_ticket, hs]

/-- C4 witness: a confirmed ticket is payable by the accounting manager,
and a still-Requested one is rejected with `TicketCannotBePaid`. -/
theorem markAsPaid_succeeds_iff_witness :
    (tConf.status = Status.Confirmed ∧
      uAcc.role = Role.AccountingManager) ∧
    (∃ t', edit_ticket uAcc tConf .MarkAsPaid = .ok t') ∧
    edit_ticket uIni tReq .MarkAsPaid = .error .TicketCannotBePaid :=
  ⟨⟨rfl, rfl⟩,
    (markAsPaid_succeeds_iff uAcc tConf).1.mpr ⟨rfl, rfl⟩,
    (markAsPaid_succeeds_iff uIni tReq).2.2 (Or.inl rfl)⟩

/-! ### C5 -/

/-- C5: on any Requested ticket, `Confirm(p)` by a purchasing manager
yields `Confirmed` with `price = p` and the manager recorded; a
subsequent `MarkAsPaid` by an accounting manager yields
`PaymentCompleted` with the price unchanged and the accountant
recorded. -/
theorem confirm_then_markAsPaid :
    ∀ (t : Ticket) (pm am : User) (p : Rat),
      t.status = .Requested →
      pm.role = .PurchasingManager →
      am.role = .AccountingManager →
      ∃ t1 t2,
        edit_ticket pm t (.Confirm p) = .ok t1 ∧
        t1.status = .Confirmed ∧ t1.price = some p ∧
        t1.purchasing_manager = some pm.id ∧
        edit_ticket am t1 .MarkAsPaid = .ok t2 ∧
        t2.status = .PaymentCompleted ∧ t2.price = some p ∧
        t2.accounting_manager = some am.id := by
  intro t pm am p hs hpm ham
  exact ⟨_, _, confirm_ok p hs hpm, rfl, rfl, rfl,
    markAsPaid_ok rfl ham, rfl, rfl, rfl⟩

/-- C5 witness: the two-step run at price 100 on the sample data. -/
theorem confirm_then_markAsPaid_witness :
    tReq.status = Status.Requested ∧
    ∃ t1 t2,
      edit_ticket uPur tReq (.Confirm 100) = .ok t1 ∧
      t1.status = .Confirmed ∧ t1.price = some 100 ∧
      t1.purchasing_manager = some uPur.id ∧
      edit_ticket uAcc t1 .MarkAsPaid = .ok t2 ∧
      t2.status = .PaymentCompleted ∧ t2.price = some 100 ∧
      t2.accounting_manager = some uAcc.id :=
  ⟨rfl, confirm_then_markAsPaid tReq uPur uAcc 100 rfl rfl rfl⟩

/-! ### C6 -/

/-- The i-th ticket of the listing scenario: created in order, so both
`created_at` and the id grow with `i`. -/
def mkT (i : Nat) (title : String) : Ticket :=
  { id := i, title := title, description := "", status := .Requested,
    count := 1, price := none, initiator := 1,
    purchasing_manager := none, accounting_manager := none,
    created_at := Int.ofNat i }

/-- The `tickets` table after creating "Ticket 1".."Ticket 4" in order. -/
def store4 : List Ticket :=
  [mkT 1 "Ticket 1", mkT 2 "Ticket 2", mkT 3 "Ticket 3",
   mkT 4 "Ticket 4"]

/-- C6: listing is deterministically ordered — the sorted table is a
permutation of the store, pairwise ordered by `created_at DESC, id DESC`
(a total relation, antisymmetric up to the sort key), offset/limit apply
after the ordering, the total count is the full table size, and the
4-ticket scenario pages as `["Ticket 4","Ticket 3"]` then
`["Ticket 2","Ticket 1"]`. -/
theorem pagination_contract :
    (∀ store : List Ticket, (sortTickets store).Perm store) ∧
    (∀ store : List Ticket, (sortTickets store).Pairwise pageBefore) ∧
    (∀ a b : Ticket, pageBefore a b ∨ pageBefore b a) ∧
    (∀ a b : Ticket, pageBefore a b → pageBefore b a →
      a.created_at = b.created_at ∧ a.id = b.id) ∧
    (∀ (store : List Ticket) (offset limit : Nat),
      get_tickets_page store offset limit =
        ((sortTickets store).drop offset).take limit) ∧
    (∀ store : List Ticket, get_tickets_count store = store.length) ∧
    ((get_tickets_page store4 0 2).map Ticket.title =
        ["Ticket 4", "Ticket 3"] ∧
      (get_tickets_page store4 2 2).map Ticket.title =
        ["Ticket 2", "Ticket 1"] ∧
      get_tickets_count store4 = 4) := by
  refine ⟨?_, ?_, ?_, ?_, ?_, ?_, ?_, ?_, ?_⟩
  · exact fun store => List.perm_insertionSort pageBefore store
  · exact fun store => List.sorted_insertionSort pageBefore store
  · intro a b
    unfold pageBefore
    omega
  · intro a b hab hba
    unfold pageBefore at hab hba
    omega
  · intro store offset limit
    rfl
  · intro store
    rfl
  · rfl
  · rfl
  · rfl

/-- C6 witness: the antisymmetry conjunct applied to a concrete pair. -/
theorem pagination_contract_witness :
    pageBefore (mkT 1 "Ticket 1") (mkT 1 "Ticket 1") ∧
    ((mkT 1 "Ticket 1").created_at = (mkT 1 "Ticket 1").created_at ∧
      (mkT 1 "Ticket 1").id = (mkT 1 "Ticket 1").id) :=
  ⟨Or.inr ⟨rfl, le_refl _⟩,
    pagination_contract.2.2.2.1 (mkT 1 "Ticket 1") (mkT 1 "Ticket 1")
      (Or.inr ⟨rfl, le_refl _⟩) (Or.inr ⟨rfl, le_refl _⟩)⟩

/-! ### C7 -/

/-- C7: `EditDescription` succeeds for every actor on every ticket in
every status, setting the description to the supplied value. -/
theorem edit_description_unguarded :
    ∀ (my : User) (t : Ticket) (d : String),
      edit_ticket my t (.EditDescription d) =
        .ok { t with description := d } :=
  fun _ _ _ => rfl

/-! ### C8 -/

/-- C8 counterexample: `add_ticket` performs no positivity validation on
`count` — creation with `count = 0` is accepted and produces a ticket
whose count is 0, not at least 1. -/
theorem add_ticket_count_zero_accepted :
    add_ticket uIni 11 0 "Ticket 0" "zero count" 0 =
      .ok { id := 11, title := "Ticket 0", description := "zero count",
            status := .Requested, count := 0, price := none,
            initiator := 1, purchasing_manager := none,
            accounting_manager := none, created_at := 0 } :=
  rfl

/-- C8 (amended): `count` is a nonnegative integer copied verbatim from
the creation request with no positivity validation (count = 0 is
accepted), and no edit operation ever changes it. -/
theorem count_copied_verbatim :
    (∀ (my : User) (newId : Nat) (now : Int)
        (title description : String) (count : Nat) (t : Ticket),
      add_ticket my newId now title description count = .ok t →
      t.count = count) ∧
    (∀ (my : User) (t : Ticket) (op : EditTicketInput) (t' : Ticket),
      edit_ticket my t op = .ok t' → t'.count = t.count) := by
  constructor
  · intro my newId now title description count t h
    obtain ⟨-, rfl⟩ := add_ok_inv h
    rfl
  · intro my t op t' h
    rcases edit_ok_inv h with
      ⟨s, _, _, _, rfl⟩ | ⟨s, _, rfl⟩ | ⟨_, _, _, rfl⟩ |
      ⟨p, _, _, _, rfl⟩ | ⟨_, _, _, rfl⟩ | ⟨_, _, _, rfl⟩ <;> rfl

/-- C8 witness: count 0 is copied verbatim at creation. -/
theorem count_copied_verbatim_witness :
    add_ticket uIni 12 0 "Ticket Z" "d" 0 =
      .ok { id := 12, title := "Ticket Z", description := "d",
            status := .Requested, count := 0, price := none,
            initiator := 1, purchasing_manager := none,
            accounting_manager := none, created_at := 0 } ∧
    ({ id := 12, title := "Ticket Z", description := "d",
       status := .Requested, count := 0, price := none,
       initiator := 1, purchasing_manager := none,
       accounting_manager := none, created_at := 0 } : Ticket).count
      = 0 :=
  ⟨rfl, count_copied_verbatim.1 uIni 12 0 "Ticket Z" "d" 0 _ rfl⟩

/-! ### C9 -/

/-- The ticket produced by `MarkAsPaid` on the sample confirmed ticket. -/
def tPaid : Ticket :=
  { tConf with status := .PaymentCompleted,
               accounting_manager := some 3 }

/-- C9: accepted operations never change `id`, `initiator`, `count` or
`created_at`; `purchasing_manager` and `accounting_manager` start null at
creation, become non-null only through `Confirm`/`Deny` resp.
`MarkAsPaid`, and once non-null are never cleared. -/
theorem frame_and_manager_monotonic :
    (∀ (my : User) (newId : Nat) (now : Int)
        (title description : String) (count : Nat) (t : Ticket),
      add_ticket my newId now title description count = .ok t →
      t.purchasing_manager = none ∧ t.accounting_manager = none) ∧
    (∀ (my : User) (t : Ticket) (op : EditTicketInput) (t' : Ticket),
      edit_ticket my t op = .ok t' →
      t'.id = t.id ∧ t'.initiator = t.initiator ∧
      t'.count = t.count ∧ t'.created_at = t.created_at ∧
      (t.purchasing_manager ≠ none → t'.purchasing_manager ≠ none) ∧
      (t.accounting_manager ≠ none → t'.accounting_manager ≠ none) ∧
      (t.purchasing_manager = none → t'.purchasing_manager ≠ none →
        (∃ p, op = .Confirm p) ∨ op = .Deny) ∧
      (t.accounting_manager = none → t'.accounting_manager ≠ none →
        op = .MarkAsPaid)) := by
  constructor
  · intro my newId now title description count t h
    obtain ⟨-, rfl⟩ := add_ok_inv h
    exact ⟨rfl, rfl⟩
  · intro my t op t' h
    rcases edit_ok_inv h with
      ⟨s, rfl, _, _, rfl⟩ | ⟨s, rfl, rfl⟩ | ⟨rfl, _, _, rfl⟩ |
      ⟨p, rfl, _, _, rfl⟩ | ⟨rfl, _, _, rfl⟩ | ⟨rfl, _, _, rfl⟩
    · exact ⟨rfl, rfl, rfl, rfl, fun h => h, fun h => h,
        fun h1 h2 => absurd h1 h2, fun h1 h2 => absurd h1 h2⟩
    · exact ⟨rfl, rfl, rfl, rfl, fun h => h, fun h => h,
        fun h1 h2 => absurd h1 h2, fun h1 h2 => absurd h1 h2⟩
    · exact ⟨rfl, rfl, rfl, rfl, fun h => h, fun h => h,
        fun h1 h2 => absurd h1 h2, fun h1 h2 => absurd h1 h2⟩
    · exact ⟨rfl, rfl, rfl, rfl, fun _ => by simp, fun h => h,
        fun _ _ => Or.inl ⟨p, rfl⟩, fun h1 h2 => absurd h1 h2⟩
    · exact ⟨rfl, rfl, rfl, rfl, fun _ => by simp, fun h => h,
        fun _ _ => Or.inr rfl, fun h1 h2 => absurd h1 h2⟩
    · exact ⟨rfl, rfl, rfl, rfl, fun h => h, fun _ => by simp,
        fun h1 h2 => absurd h1 h2, fun _ _ => rfl⟩

/-- C9 witness: a concrete accepted `MarkAsPaid` keeps the id and keeps
the already-set purchasing manager non-null. -/
theorem frame_and_manager_monotonic_witness :
    edit_ticket uAcc tConf .MarkAsPaid = .ok tPaid ∧
    tPaid.id = tConf.id ∧ tPaid.purchasing_manager ≠ none :=
  ⟨rfl,
    (frame_and_manager_monotonic.2 uAcc tConf .MarkAsPaid tPaid rfl).1,
    (frame_and_manager_monotonic.2 uAcc tConf .MarkAsPaid
        tPaid rfl).2.2.2.2.1 (by simp [tConf])⟩

/-! ### C10 -/

/-- C10: `Confirm` validates nothing about the supplied amount — for any
Requested ticket and purchasing manager it succeeds for every price,
zero and negative included, storing the value verbatim. -/
theorem confirm_accepts_any_price :
    ∀ (my : User) (t : Ticket) (p : Rat),
      t.status = .Requested → my.role = .PurchasingManager →
      edit_ticket my t (.Confirm p) =
        .ok { t with status := .Confirmed, price := some p,
                     purchasing_manager := some my.id } :=
  fun _ _ p hs hr => confirm_ok p hs hr

/-- C10 witness: a negative and a zero price are both accepted and
stored verbatim. -/
theorem confirm_accepts_any_price_witness :
    tReq.status = Status.Requested ∧
    edit_ticket uPur tReq (.Confirm (-5)) =
      .ok { tReq with status := .Confirmed, price := some (-5),
                      purchasing_manager := some uPur.id } ∧
    edit_ticket uPur tReq (.Confirm 0) =
      .ok { tReq with status := .Confirmed, price := some 0,
                      purchasing_manager := some uPur.id } :=
  ⟨rfl, confirm_accepts_any_price uPur tReq (-5) rfl rfl,
    confirm_accepts_any_price uPur tReq 0 rfl rfl⟩

end Dubna
